import Mathlib

/-!
Shallow embedding of the Sermon emailer (config.py, youtube_service.py,
email_service.py, sermon_emailer.py) and proofs about its selection,
scheduling, configuration and pagination logic.

External collaborators (the YouTube API client and the SendGrid client)
are modelled as explicit parameters: a `Provider` record for the video
source, and an `Except String Nat` dispatch response (error = transport
exception, ok code = HTTP status) for the email service.  `random.choice`
is modelled by an arbitrary index `k`, reduced modulo the pool length.
-/

namespace Sermon

/-- A video record as built in `YouTubeService.get_channel_videos`
(keys `id`, `title`, `channel_title`, `published_at`). -/
structure Video where
  id : String
  title : String
  channel_title : String
  published_at : String
  deriving Repr, DecidableEq

def dummyVideo : Video := ⟨"", "", "", ""⟩

/-- One page of a `playlistItems().list` response: its `items` and the
optional `nextPageToken`. -/
structure Page where
  items : List Video
  nextPageToken : Option String
  deriving Repr, DecidableEq

/-- The YouTube collaborator: `channels().list` resolution (returning the
uploads-playlist ids of the matching channel items, or an error for an
`HttpError` / malformed response) and the paginated
`playlistItems().list` call (page size, page token). -/
structure Provider where
  channels_list : String → Except String (List String)
  playlistItems_list : String → Nat → Option String → Except String Page

/-- The pagination loop of `YouTubeService.get_channel_videos`
(`while len(videos) < max_results: ...`), with an explicit fuel bound and
an issued-request counter.  `.1 = none` models an exception raised by a
page request (caught by the enclosing `try`); the counter counts the
requests issued, the failing one included. -/
def fetchLoop (p : Provider) (pid : String) (max_results : Nat) :
    Nat → List Video → Option String → Nat → Option (List Video) × Nat
  | 0, vids, _, reqs => (some vids, reqs)
  | fuel + 1, vids, tok, reqs =>
    if vids.length < max_results then
      match p.playlistItems_list pid (min 50 (max_results - vids.length)) tok with
      | .error _ => (none, reqs + 1)
      | .ok page =>
        let vids' := vids ++ page.items
        match page.nextPageToken with
        | none => (some vids', reqs + 1)
        | some t => fetchLoop p pid max_results fuel vids' (some t) (reqs + 1)
    else (some vids, reqs)

/-- Embedding of `YouTubeService.get_channel_videos`: resolve the uploads
playlist, then page through it; every failure (resolution error, channel
not found, page-request error) is caught and yields `[]`.  Totality of
this function models "never propagates an exception". -/
def get_channel_videos (p : Provider) (channel_id : String) (max_results : Nat := 50) :
    List Video :=
  match p.channels_list channel_id with
  | .error _ => []
  | .ok [] => []
  | .ok (pid :: _) =>
    match (fetchLoop p pid max_results (max_results + 1) [] none 0).1 with
    | none => []
    | some vids => vids

/-- Number of `playlistItems().list` requests issued by
`get_channel_videos` for the same arguments. -/
def get_channel_videos_requests (p : Provider) (channel_id : String) (max_results : Nat) :
    Nat :=
  match p.channels_list channel_id with
  | .error _ => 0
  | .ok [] => 0
  | .ok (pid :: _) => (fetchLoop p pid max_results (max_results + 1) [] none 0).2

/-- The aggregate candidate pool of `SermonEmailer.get_random_sermon`:
`get_channel_videos` once per configured channel, concatenated. -/
def aggregatePool (p : Provider) (channel_ids : List String) : List Video :=
  (channel_ids.map fun cid => get_channel_videos p cid 50).flatten

/-- The list comprehension filtering out the last-sent id
(keep v when v.id differs from last_sermon_id), together with the reset
to the full pool when the filtered list is empty. -/
def availablePool (all_videos : List Video) (last_sermon_id : Option String) :
    List Video :=
  if (all_videos.filter fun v => decide (last_sermon_id ≠ some v.id)).isEmpty then
    all_videos
  else all_videos.filter fun v => decide (last_sermon_id ≠ some v.id)

/-- The assignment selected_video = random.choice(available_videos): a pick
modelled by an arbitrary index `k` reduced modulo the pool length. -/
def selectVideo (all_videos : List Video) (last_sermon_id : Option String) (k : Nat) :
    Video :=
  let av := availablePool all_videos last_sermon_id
  av.getD (k % av.length) dummyVideo

/-- Embedding of `SermonEmailer.get_random_sermon`, over the already fetched
aggregate pool.  Returns the result dict — the literal key-value pairs the
source builds — together with the new `self.last_sermon_id` (assigned at
selection time, line 72 of sermon_emailer.py). -/
def get_random_sermon (all_videos : List Video) (last_sermon_id : Option String)
    (k : Nat) : Option (List (String × String)) × Option String :=
  if all_videos.isEmpty then (none, last_sermon_id)
  else
    let v := selectVideo all_videos last_sermon_id k
    (some [("title", v.title),
           ("url", "https://www.youtube.com/watch?v=" ++ v.id),
           ("channel_title", v.channel_title)],
     some v.id)

/-- Embedding of `EmailService.send_email`: success iff the SendGrid call returns
without exception and with status code 202. -/
def send_email (resp : Except String Nat) : Bool :=
  match resp with
  | .ok code => code == 202
  | .error _ => false

/-- The mutable selection state of `SermonEmailer`
(`self.last_sermon_date`, `self.last_sermon_id`); dates are modelled as
naturals. -/
structure EmState where
  last_sermon_date : Option Nat
  last_sermon_id : Option String
  deriving Repr, DecidableEq

/-- Observable outcome of one `send_daily_sermon` cycle: the state after
the cycle, whether a selection was attempted, whether a dispatch was
attempted, and whether it succeeded. -/
structure CycleOut where
  state : EmState
  selectionAttempted : Bool
  dispatchAttempted : Bool
  dispatchSucceeded : Bool
  deriving Repr, DecidableEq

/-- Embedding of `SermonEmailer.send_daily_sermon`: the sent-today gate, the selection,
and the dispatch.  `today` is `datetime.now().date()`, `all_videos` the
pool the channel fetches produce this cycle, `k` the random index, `resp`
the SendGrid response. -/
def send_daily_sermon (s : EmState) (today : Nat) (all_videos : List Video)
    (k : Nat) (resp : Except String Nat) : CycleOut :=
  if s.last_sermon_date = some today then
    ⟨s, false, false, false⟩
  else
    match get_random_sermon all_videos s.last_sermon_id k with
    | (none, last_id) => ⟨⟨s.last_sermon_date, last_id⟩, true, false, false⟩
    | (some _, last_id) =>
      if send_email resp then
        ⟨⟨some today, last_id⟩, true, true, true⟩
      else
        ⟨⟨s.last_sermon_date, last_id⟩, true, true, false⟩

/-! ### Configuration (config.py)

The environment is a function `String → Option String`, mirroring
`os.getenv`.  Python's `str.split(sep)` and `int(...)` are modelled
directly. -/

/-- Python's `str.split(sep)` for a one-character separator, on the
character list: always returns at least one (possibly empty) group. -/
def pySplit (sep : Char) : List Char → List (List Char)
  | [] => [[]]
  | c :: cs =>
    if c = sep then [] :: pySplit sep cs
    else
      match pySplit sep cs with
      | [] => [[c]]
      | g :: gs => (c :: g) :: gs

/-- The split at the string level. -/
def pySplitStr (sep : Char) (s : String) : List String :=
  (pySplit sep s.data).map List.asString

/-- Python's `str.strip()` on the character list: drop whitespace from
both ends. -/
def pyStrip (l : List Char) : List Char :=
  ((l.dropWhile Char.isWhitespace).reverse.dropWhile Char.isWhitespace).reverse

/-- The strip at the string level. -/
def pyStripStr (s : String) : String :=
  (pyStrip s.data).asString

/-- Digit-string value, `none` when the characters are not all digits or
the string is empty. -/
def digitsVal (cs : List Char) : Option Nat :=
  if cs.isEmpty then none
  else if cs.all Char.isDigit then
    some (cs.foldl (fun a c => a * 10 + (c.toNat - 48)) 0)
  else none

/-- Python's `int(s)` on a decimal literal: optional surrounding
whitespace, optional sign, digits; anything else raises `ValueError`. -/
def pyInt (s : String) : Except String Int :=
  match pyStrip s.data with
  | '+' :: rest =>
    match digitsVal rest with
    | some n => .ok (n : Int)
    | none => .error ("invalid literal for int: " ++ s)
  | '-' :: rest =>
    match digitsVal rest with
    | some n => .ok (-(n : Int))
    | none => .error ("invalid literal for int: " ++ s)
  | cs =>
    match digitsVal cs with
    | some n => .ok (n : Int)
    | none => .error ("invalid literal for int: " ++ s)

/-- Embedding of `Config._get_required_env`: raises (returns `.error`) when the
variable is unset or empty (`if not value`). -/
def _get_required_env (env : String → Option String) (key : String) :
    Except String String :=
  match env key with
  | none => .error ("Required environment variable " ++ key ++ " is not set")
  | some v =>
    if v = "" then .error ("Required environment variable " ++ key ++ " is not set")
    else .ok v

/-- The parsing part of `Config._get_channel_ids`: split on commas, strip
each entry, raise if the resulting list is empty. -/
def _get_channel_ids_parse (s : String) : Except String (List String) :=
  if ((pySplitStr ',' s).map pyStripStr).isEmpty then
    .error "No YouTube channel IDs provided"
  else .ok ((pySplitStr ',' s).map pyStripStr)

/-- Embedding of `Config._get_channel_ids`: required `YOUTUBE_CHANNEL_IDS`, then parse. -/
def _get_channel_ids (env : String → Option String) : Except String (List String) :=
  match _get_required_env env "YOUTUBE_CHANNEL_IDS" with
  | .error e => .error e
  | .ok s => _get_channel_ids_parse s

/-- The format heuristic of `Config._get_channel_ids`: `true` when the id
triggers the "may not be in the correct format" warning (does not start
with `UC` or is not 24 characters). -/
def channelIdWarning (cid : String) : Bool :=
  !((['U', 'C'] : List Char).isPrefixOf cid.data && cid.length == 24)

/-- The fields `Config.__init__` assigns. -/
structure Config where
  youtube_api_key : String
  youtube_channel_ids : List String
  sendgrid_api_key : String
  sender_email : String
  recipient_email : String
  check_interval_hours : Int
  log_level : String
  log_file : String
  deriving Repr, DecidableEq

/-- Embedding of the `Config` constructor: the required lookups, channel-id parsing and
interval parsing, in source order; any `ValueError` propagates as
`.error`. -/
def Config_init (env : String → Option String) : Except String Config :=
  match _get_required_env env "YOUTUBE_API_KEY" with
  | .error e => .error e
  | .ok yk =>
    match _get_channel_ids env with
    | .error e => .error e
    | .ok cids =>
      match _get_required_env env "SENDGRID_API_KEY" with
      | .error e => .error e
      | .ok sg =>
        match _get_required_env env "SENDER_EMAIL" with
        | .error e => .error e
        | .ok snd =>
          match _get_required_env env "RECIPIENT_EMAIL" with
          | .error e => .error e
          | .ok rcp =>
            match pyInt ((env "CHECK_INTERVAL_HOURS").getD "24") with
            | .error e => .error e
            | .ok n =>
              .ok ⟨yk, cids, sg, snd, rcp, n,
                   (env "LOG_LEVEL").getD "INFO",
                   (env "LOG_FILE").getD "logs/sermon_emailer.log"⟩

/-- Embedding of `Config.validate`: the assertion chain, `false` when any assertion
fails. -/
def Config.validate (c : Config) : Bool :=
  !(c.youtube_api_key == "") &&
  !c.youtube_channel_ids.isEmpty &&
  !(c.sendgrid_api_key == "") &&
  !(c.sender_email == "") &&
  !(c.recipient_email == "") &&
  c.sender_email.data.contains '@' &&
  c.recipient_email.data.contains '@' &&
  decide (0 < c.check_interval_hours)

/-- The five keys `Config.__init__` requires. -/
def requiredKeys : List String :=
  ["YOUTUBE_API_KEY", "YOUTUBE_CHANNEL_IDS", "SENDGRID_API_KEY",
   "SENDER_EMAIL", "RECIPIENT_EMAIL"]

/-- The `__main__` startup path: `SermonEmailer()` constructs `Config()`
and then `run()` starts the scheduling loop; the loop starts iff
`Config.__init__` did not raise.  `Config.validate` is never called on
this path. -/
def startsSchedulingLoop (env : String → Option String) : Bool :=
  match Config_init env with
  | .ok _ => true
  | .error _ => false

/-- A concrete environment whose sender and recipient addresses lack an
`@` (so `Config.validate` fails) but whose required values are all set. -/
def envNoAt : String → Option String := fun key =>
  if key = "YOUTUBE_API_KEY" then some "yt-key"
  else if key = "YOUTUBE_CHANNEL_IDS" then some "UCaaaaaaaaaaaaaaaaaaaaaa"
  else if key = "SENDGRID_API_KEY" then some "sg-key"
  else if key = "SENDER_EMAIL" then some "sender-without-at"
  else if key = "RECIPIENT_EMAIL" then some "recipient-without-at"
  else none

/-- A concrete environment missing `RECIPIENT_EMAIL`. -/
def envMissingRecipient : String → Option String := fun key =>
  if key = "RECIPIENT_EMAIL" then none else envNoAt key

/-- A concrete provider used to instantiate proved properties: one
channel resolving to one uploads playlist whose single page holds one
video and no continuation token. -/
def demoProvider : Provider where
  channels_list := fun _ => .ok ["PLdemo"]
  playlistItems_list := fun _ _ _ => .ok ⟨[⟨"b", "TB", "CB", "p"⟩], none⟩

/-- A concrete provider with a two-page uploads playlist: the first page
(no token yet) is full and reports a continuation token, the second has
no further token.  Pages honor the requested page size. -/
def pagedProvider : Provider where
  channels_list := fun _ => .ok ["PLpaged"]
  playlistItems_list := fun _ sz tok =>
    match tok with
    | none => .ok ⟨List.replicate (min sz 50) ⟨"v1", "T1", "C", "p"⟩, some "page2"⟩
    | some _ => .ok ⟨List.replicate (min sz 50) ⟨"v2", "T2", "C", "p"⟩, none⟩

/-- A concrete provider whose every call raises (e.g. quota exceeded). -/
def failingProvider : Provider where
  channels_list := fun _ => .error "quotaExceeded"
  playlistItems_list := fun _ _ _ => .error "quotaExceeded"

/-! ### Helper lemmas -/

theorem getD_mod_mem {α : Type} {l : List α} (d : α) (k : Nat) (h : l ≠ []) :
    l.getD (k % l.length) d ∈ l := by
  have hl : 0 < l.length := List.length_pos.mpr h
  have hk : k % l.length < l.length := Nat.mod_lt _ hl
  rw [List.getD_eq_getElem l d hk]
  exact List.getElem_mem hk

theorem availablePool_ne_nil (vids : List Video) (last : Option String)
    (h : vids ≠ []) : availablePool vids last ≠ [] := by
  unfold availablePool
  by_cases hf : (vids.filter fun v => decide (last ≠ some v.id)).isEmpty <;>
    simp only [hf, if_true, if_false]
  · exact h
  · simpa [List.isEmpty_iff] using hf

theorem availablePool_subset (vids : List Video) (last : Option String) :
    ∀ v ∈ availablePool vids last, v ∈ vids := by
  unfold availablePool
  by_cases hf : (vids.filter fun v => decide (last ≠ some v.id)).isEmpty <;>
    simp only [hf, if_true, if_false]
  · intro v hv; exact hv
  · intro v hv; exact (List.mem_filter.mp hv).1

theorem selectVideo_mem_avail (vids : List Video) (last : Option String) (k : Nat)
    (h : vids ≠ []) : selectVideo vids last k ∈ availablePool vids last := by
  unfold selectVideo
  exact getD_mod_mem _ _ (availablePool_ne_nil _ _ h)

theorem selectVideo_mem (vids : List Video) (last : Option String) (k : Nat)
    (h : vids ≠ []) : selectVideo vids last k ∈ vids :=
  availablePool_subset _ _ _ (selectVideo_mem_avail _ _ _ h)

theorem get_random_sermon_nonempty (vids : List Video) (last : Option String)
    (k : Nat) (h : vids ≠ []) :
    get_random_sermon vids last k =
      (some [("title", (selectVideo vids last k).title),
             ("url", "https://www.youtube.com/watch?v=" ++ (selectVideo vids last k).id),
             ("channel_title", (selectVideo vids last k).channel_title)],
       some (selectVideo vids last k).id) := by
  unfold get_random_sermon
  simp [List.isEmpty_iff, h]

theorem pySplit_ne_nil (sep : Char) (l : List Char) : pySplit sep l ≠ [] := by
  cases l with
  | nil => simp [pySplit]
  | cons c cs =>
    unfold pySplit
    split
    · simp
    · split <;> simp

theorem req_env_fail {env : String → Option String} {key : String}
    (h : env key = none ∨ env key = some "") :
    ∃ e, _get_required_env env key = .error e := by
  rcases h with h | h <;> simp [_get_required_env, h]

theorem req_env_some {env : String → Option String} {key v : String}
    (henv : env key = some v) (h : v ≠ "") :
    _get_required_env env key = .ok v := by
  simp [_get_required_env, henv, h]

theorem channel_ids_ok_required {env : String → Option String} {cids : List String}
    (h : _get_channel_ids env = .ok cids) :
    ∃ v, _get_required_env env "YOUTUBE_CHANNEL_IDS" = .ok v := by
  unfold _get_channel_ids at h
  cases h1 : _get_required_env env "YOUTUBE_CHANNEL_IDS" with
  | error e => rw [h1] at h; simp at h
  | ok s => exact ⟨s, rfl⟩

theorem config_init_ok_required {env : String → Option String} {c : Config}
    (h : Config_init env = .ok c) :
    ∀ k ∈ requiredKeys, ∃ v, _get_required_env env k = .ok v := by
  unfold Config_init at h
  cases h1 : _get_required_env env "YOUTUBE_API_KEY" with
  | error e => rw [h1] at h; simp at h
  | ok yk =>
  rw [h1] at h
  cases h2 : _get_channel_ids env with
  | error e => rw [h2] at h; simp at h
  | ok cids =>
  rw [h2] at h
  cases h3 : _get_required_env env "SENDGRID_API_KEY" with
  | error e => rw [h3] at h; simp at h
  | ok sg =>
  rw [h3] at h
  cases h4 : _get_required_env env "SENDER_EMAIL" with
  | error e => rw [h4] at h; simp at h
  | ok snd =>
  rw [h4] at h
  cases h5 : _get_required_env env "RECIPIENT_EMAIL" with
  | error e => rw [h5] at h; simp at h
  | ok rcp =>
  intro k hk
  simp only [requiredKeys, List.mem_cons, List.not_mem_nil, or_false] at hk
  rcases hk with rfl | rfl | rfl | rfl | rfl
  · exact ⟨yk, h1⟩
  · exact channel_ids_ok_required h2
  · exact ⟨sg, h3⟩
  · exact ⟨snd, h4⟩
  · exact ⟨rcp, h5⟩

theorem fetchLoop_count_ge (p : Provider) (pid : String) (mr : Nat) :
    ∀ (fuel : Nat) (vids : List Video) (tok : Option String) (reqs : Nat),
      reqs ≤ (fetchLoop p pid mr fuel vids tok reqs).2 := by
  intro fuel
  induction fuel with
  | zero => intro vids tok reqs; simp [fetchLoop]
  | succ n ih =>
    intro vids tok reqs
    unfold fetchLoop
    by_cases hlen : vids.length < mr
    · rw [if_pos hlen]
      cases hp : p.playlistItems_list pid (min 50 (mr - vids.length)) tok with
      | error e => simp
      | ok page =>
        cases ht : page.nextPageToken with
        | none => simp [ht]
        | some t =>
          simp only [ht]
          exact le_trans (Nat.le_succ reqs) (ih _ _ _)
    · rw [if_neg hlen]

theorem fetchLoop_count_succ (p : Provider) (pid : String) (mr fuel : Nat)
    (vids : List Video) (tok : Option String) (reqs : Nat)
    (hlen : vids.length < mr) :
    reqs + 1 ≤ (fetchLoop p pid mr (fuel + 1) vids tok reqs).2 := by
  unfold fetchLoop
  rw [if_pos hlen]
  cases hp : p.playlistItems_list pid (min 50 (mr - vids.length)) tok with
  | error e => simp
  | ok page =>
    cases ht : page.nextPageToken with
    | none => simp [ht]
    | some t =>
      simp only [ht]
      exact fetchLoop_count_ge p pid mr fuel _ _ _

theorem fetchLoop_length_le (p : Provider) (pid : String) (mr : Nat)
    (hsz : ∀ sz tok page, p.playlistItems_list pid sz tok = .ok page →
      page.items.length ≤ sz) :
    ∀ (fuel : Nat) (vids : List Video) (tok : Option String) (reqs : Nat)
      (res : List Video), vids.length ≤ mr →
      (fetchLoop p pid mr fuel vids tok reqs).1 = some res → res.length ≤ mr := by
  intro fuel
  induction fuel with
  | zero =>
    intro vids tok reqs res hv h
    simp only [fetchLoop, Option.some_inj] at h
    exact h ▸ hv
  | succ n ih =>
    intro vids tok reqs res hv h
    unfold fetchLoop at h
    by_cases hlen : vids.length < mr
    · rw [if_pos hlen] at h
      cases hp : p.playlistItems_list pid (min 50 (mr - vids.length)) tok with
      | error e => rw [hp] at h; simp at h
      | ok page =>
        rw [hp] at h
        have hitems : page.items.length ≤ min 50 (mr - vids.length) := hsz _ _ _ hp
        have hlen' : (vids ++ page.items).length ≤ mr := by
          have h2 : page.items.length ≤ mr - vids.length :=
            le_trans hitems (min_le_right _ _)
          simp only [List.length_append]
          omega
        cases ht : page.nextPageToken with
        | none =>
          simp only [ht, Option.some_inj] at h
          exact h ▸ hlen'
        | some t =>
          simp only [ht] at h
          exact ih _ _ _ _ hlen' h
    · rw [if_neg hlen] at h
      simp only [Option.some_inj] at h
      exact h ▸ hv

theorem fetchLoop_step_stop (p : Provider) (pid : String) (mr fuel : Nat)
    (vids : List Video) (tok : Option String) (reqs : Nat) (page : Page)
    (hlen : vids.length < mr)
    (hp : p.playlistItems_list pid (min 50 (mr - vids.length)) tok = .ok page)
    (ht : page.nextPageToken = none) :
    fetchLoop p pid mr (fuel + 1) vids tok reqs =
      (some (vids ++ page.items), reqs + 1) := by
  unfold fetchLoop
  rw [if_pos hlen, hp]
  simp only [ht]

theorem fetchLoop_step_cont (p : Provider) (pid : String) (mr fuel : Nat)
    (vids : List Video) (tok : Option String) (reqs : Nat) (page : Page)
    (t : String) (hlen : vids.length < mr)
    (hp : p.playlistItems_list pid (min 50 (mr - vids.length)) tok = .ok page)
    (ht : page.nextPageToken = some t) :
    fetchLoop p pid mr (fuel + 1) vids tok reqs =
      fetchLoop p pid mr fuel (vids ++ page.items) (some t) (reqs + 1) := by
  unfold fetchLoop
  rw [if_pos hlen, hp]
  simp only [ht]
  cases fuel <;> rfl

/-! ### Claim theorems -/

/-- C4: once `last_sermon_date` equals today's date, a `send_daily_sermon`
cycle on the same day is a no-op apart from logging — no selection, no
dispatch attempt, state unchanged — so at most one successful dispatch is
recorded per calendar day. -/
theorem c4_sent_today_gate (s : EmState) (today : Nat) (vids : List Video)
    (k : Nat) (resp : Except String Nat) (h : s.last_sermon_date = some today) :
    send_daily_sermon s today vids k resp = ⟨s, false, false, false⟩ := by
  simp [send_daily_sermon, h]

theorem c4_sent_today_gate_witness :
    (⟨some 5, some "a"⟩ : EmState).last_sermon_date = some 5 ∧
    send_daily_sermon ⟨some 5, some "a"⟩ 5 [⟨"b", "TB", "CB", "p"⟩] 0 (.ok 202) =
      ⟨⟨some 5, some "a"⟩, false, false, false⟩ :=
  ⟨rfl, c4_sent_today_gate ⟨some 5, some "a"⟩ 5 [⟨"b", "TB", "CB", "p"⟩] 0 (.ok 202) rfl⟩

/-- C1 counterexample: a cycle whose dispatch fails (status 500) does NOT
leave the whole Selection State unchanged — `last_sermon_id` was already
reassigned at selection time (sermon_emailer.py line 72), before any
delivery confirmation; only `last_sermon_date` is preserved. -/
theorem c1_counterexample :
    (send_daily_sermon ⟨none, some "a"⟩ 5 [⟨"b", "TB", "CB", "p"⟩] 0 (.ok 500)).state.last_sermon_id
        = some "b" ∧
    (⟨none, some "a"⟩ : EmState).last_sermon_id = some "a" ∧
    send_email (.ok 500) = false ∧
    (send_daily_sermon ⟨none, some "a"⟩ 5 [⟨"b", "TB", "CB", "p"⟩] 0 (.ok 500)).state.last_sermon_date
        = none := by
  decide

/-- C1 amended: when the dispatch of a cycle fails (non-202 status or
transport error), the cycle leaves `last_sermon_date` unchanged — so a
later cycle the same day is not blocked by the sent-today gate — but
`last_sermon_id` has already been set to the identifier chosen by
`get_random_sermon`, at selection time rather than after confirmed
delivery. -/
theorem c1_dispatch_failure (s : EmState) (today : Nat) (vids : List Video)
    (k : Nat) (resp : Except String Nat) (hgate : s.last_sermon_date ≠ some today)
    (hfail : send_email resp = false) :
    (send_daily_sermon s today vids k resp).state.last_sermon_date = s.last_sermon_date ∧
    (send_daily_sermon s today vids k resp).state.last_sermon_id =
      (get_random_sermon vids s.last_sermon_id k).2 := by
  unfold send_daily_sermon
  rcases hr : get_random_sermon vids s.last_sermon_id k with ⟨fst, snd⟩
  cases fst <;> simp [hgate, hfail, hr]

theorem c1_dispatch_failure_witness :
    (⟨none, some "a"⟩ : EmState).last_sermon_date ≠ some 5 ∧
    send_email (.ok 500) = false ∧
    ((send_daily_sermon ⟨none, some "a"⟩ 5 [⟨"b", "TB", "CB", "p"⟩] 0 (.ok 500)).state.last_sermon_date
        = (⟨none, some "a"⟩ : EmState).last_sermon_date ∧
     (send_daily_sermon ⟨none, some "a"⟩ 5 [⟨"b", "TB", "CB", "p"⟩] 0 (.ok 500)).state.last_sermon_id
        = (get_random_sermon [⟨"b", "TB", "CB", "p"⟩] (some "a") 0).2) :=
  ⟨by decide, by decide,
   c1_dispatch_failure ⟨none, some "a"⟩ 5 [⟨"b", "TB", "CB", "p"⟩] 0 (.ok 500)
     (by decide) (by decide)⟩

/-- C3 counterexample: the selector's result dict carries exactly three
fields — `title`, `url`, `channel_title` — not four: it has no `id` key,
so the selected video's identifier is not a field of the result. -/
theorem c3_counterexample :
    (get_random_sermon [⟨"b", "TB", "CB", "p"⟩] none 0).1 =
      some [("title", "TB"), ("url", "https://www.youtube.com/watch?v=b"),
            ("channel_title", "CB")] ∧
    ([("title", "TB"), ("url", "https://www.youtube.com/watch?v=b"),
      ("channel_title", "CB")] : List (String × String)).lookup "id" = none ∧
    ([("title", "TB"), ("url", "https://www.youtube.com/watch?v=b"),
      ("channel_title", "CB")] : List (String × String)).length = 3 := by
  decide

/-- C3 amended: whenever the selector returns a result, that result is
exactly the three-field dict built from a pool member: its title, a watch
URL constructed as the canonical scheme plus the member's identifier, and
its channel title (the identifier appears only inside the URL, not as a
separate field). -/
theorem c3_result_fields (vids : List Video) (last : Option String) (k : Nat)
    (r : List (String × String)) (h : (get_random_sermon vids last k).1 = some r) :
    ∃ v ∈ vids, r = [("title", v.title),
                     ("url", "https://www.youtube.com/watch?v=" ++ v.id),
                     ("channel_title", v.channel_title)] := by
  by_cases he : vids = []
  · subst he; simp [get_random_sermon] at h
  · rw [get_random_sermon_nonempty vids last k he] at h
    exact ⟨selectVideo vids last k, selectVideo_mem vids last k he,
           (Option.some_inj.mp h).symm⟩

theorem c3_result_fields_witness :
    (get_random_sermon [⟨"b", "TB", "CB", "p"⟩] none 0).1 =
      some [("title", "TB"), ("url", "https://www.youtube.com/watch?v=b"),
            ("channel_title", "CB")] ∧
    ∃ v ∈ [(⟨"b", "TB", "CB", "p"⟩ : Video)],
      [("title", "TB"), ("url", "https://www.youtube.com/watch?v=b"),
       ("channel_title", "CB")] =
        [("title", v.title), ("url", "https://www.youtube.com/watch?v=" ++ v.id),
         ("channel_title", v.channel_title)] :=
  ⟨by decide, c3_result_fields [⟨"b", "TB", "CB", "p"⟩] none 0 _ (by decide)⟩

/-- C5: when the pool holds at least two distinct identifiers and the
exclusion identifier occurs in the pool, the selector never picks a video
with the excluded identifier — for every random index. -/
theorem c5_exclusion_holds (vids : List Video) (ex : String) (k : Nat)
    (hdist : ∃ a ∈ vids, ∃ b ∈ vids, a.id ≠ b.id)
    (hex : ∃ u ∈ vids, u.id = ex) :
    (selectVideo vids (some ex) k).id ≠ ex ∧
    (get_random_sermon vids (some ex) k).2 ≠ some ex := by
  obtain ⟨a, ha, b, hb, hab⟩ := hdist
  have hw : ∃ w ∈ vids, w.id ≠ ex := by
    by_cases hae : a.id = ex
    · exact ⟨b, hb, fun hbe => hab (hae.trans hbe.symm)⟩
    · exact ⟨a, ha, hae⟩
  obtain ⟨w, hwv, hwid⟩ := hw
  have hvne : vids ≠ [] := by rintro rfl; exact (List.not_mem_nil a) ha
  have hwne : (some ex : Option String) ≠ some w.id :=
    fun h => hwid (Option.some_inj.mp h).symm
  have hwf : w ∈ vids.filter fun v => decide ((some ex : Option String) ≠ some v.id) :=
    List.mem_filter.mpr ⟨hwv, decide_eq_true hwne⟩
  have hfne : (vids.filter fun v => decide ((some ex : Option String) ≠ some v.id)).isEmpty
      = false := by
    rw [List.isEmpty_eq_false]
    exact List.ne_nil_of_mem hwf
  have hpool : availablePool vids (some ex) =
      vids.filter fun v => decide ((some ex : Option String) ≠ some v.id) := by
    unfold availablePool
    simp only [hfne, Bool.false_eq_true, if_false]
  have hmem := selectVideo_mem_avail vids (some ex) k hvne
  rw [hpool] at hmem
  have hsel : (some ex : Option String) ≠ some (selectVideo vids (some ex) k).id :=
    of_decide_eq_true (List.mem_filter.mp hmem).2
  refine ⟨fun heq => hsel (by rw [heq]), ?_⟩
  rw [get_random_sermon_nonempty _ _ _ hvne]
  exact fun h => hsel h.symm

theorem c5_exclusion_holds_witness :
    (∃ a ∈ [(⟨"a", "TA", "CA", "p"⟩ : Video), ⟨"b", "TB", "CB", "p"⟩],
       ∃ b ∈ [(⟨"a", "TA", "CA", "p"⟩ : Video), ⟨"b", "TB", "CB", "p"⟩], a.id ≠ b.id) ∧
    (∃ u ∈ [(⟨"a", "TA", "CA", "p"⟩ : Video), ⟨"b", "TB", "CB", "p"⟩], u.id = "a") ∧
    ((selectVideo [⟨"a", "TA", "CA", "p"⟩, ⟨"b", "TB", "CB", "p"⟩] (some "a") 0).id ≠ "a" ∧
     (get_random_sermon [⟨"a", "TA", "CA", "p"⟩, ⟨"b", "TB", "CB", "p"⟩] (some "a") 0).2
        ≠ some "a") :=
  ⟨by decide, by decide,
   c5_exclusion_holds [⟨"a", "TA", "CA", "p"⟩, ⟨"b", "TB", "CB", "p"⟩] "a" 0
     (by decide) (by decide)⟩

/-- C6: when every pool member carries the excluded identifier (so the
filter would leave nothing — in particular a singleton pool equal to the
exclusion), the exclusion is dropped: selection happens over the full
unfiltered pool and a result is still returned, so the previously sent
video may repeat. -/
theorem c6_exclusion_fallback (vids : List Video) (ex : String) (k : Nat)
    (hne : vids ≠ []) (hall : ∀ v ∈ vids, v.id = ex) :
    availablePool vids (some ex) = vids ∧
    selectVideo vids (some ex) k ∈ vids ∧
    (get_random_sermon vids (some ex) k).1.isSome = true := by
  have hfilter : (vids.filter fun v => decide ((some ex : Option String) ≠ some v.id))
      = [] := by
    refine List.filter_eq_nil_iff.mpr ?_
    intro v hv
    have hv2 := hall v hv
    simp [hv2]
  refine ⟨?_, selectVideo_mem _ _ _ hne, ?_⟩
  · unfold availablePool
    simp only [hfilter, List.isEmpty_nil, if_true]
  · rw [get_random_sermon_nonempty _ _ _ hne]
    rfl

theorem c6_exclusion_fallback_witness :
    ([(⟨"a", "TA", "CA", "p"⟩ : Video)] ≠ []) ∧
    (∀ v ∈ [(⟨"a", "TA", "CA", "p"⟩ : Video)], v.id = "a") ∧
    (availablePool [⟨"a", "TA", "CA", "p"⟩] (some "a") = [⟨"a", "TA", "CA", "p"⟩] ∧
     selectVideo [⟨"a", "TA", "CA", "p"⟩] (some "a") 0 ∈ [(⟨"a", "TA", "CA", "p"⟩ : Video)] ∧
     (get_random_sermon [⟨"a", "TA", "CA", "p"⟩] (some "a") 0).1.isSome = true) :=
  ⟨by decide, by decide, c6_exclusion_fallback [⟨"a", "TA", "CA", "p"⟩] "a" 0
    (by decide) (by decide)⟩

/-- C7: the selector returns absent exactly when the aggregate pool over
all configured channels is empty; on a non-empty pool it returns the
result built from some pool member — in particular the identifier it
selects (and records as `last_sermon_id`) is a member of the pool. -/
theorem c7_absent_iff_empty (p : Provider) (cids : List String)
    (last : Option String) (k : Nat) :
    ((get_random_sermon (aggregatePool p cids) last k).1 = none ↔
       aggregatePool p cids = []) ∧
    (aggregatePool p cids ≠ [] →
      ∃ v ∈ aggregatePool p cids,
        get_random_sermon (aggregatePool p cids) last k =
          (some [("title", v.title),
                 ("url", "https://www.youtube.com/watch?v=" ++ v.id),
                 ("channel_title", v.channel_title)], some v.id)) := by
  constructor
  · constructor
    · intro h
      by_contra hne
      rw [get_random_sermon_nonempty _ _ _ hne] at h
      simp at h
    · intro h
      simp [get_random_sermon, h]
  · intro hne
    exact ⟨selectVideo _ last k, selectVideo_mem _ _ _ hne,
           get_random_sermon_nonempty _ _ _ hne⟩

theorem c7_absent_iff_empty_witness :
    aggregatePool demoProvider ["UC1"] ≠ [] ∧
    ∃ v ∈ aggregatePool demoProvider ["UC1"],
      get_random_sermon (aggregatePool demoProvider ["UC1"]) none 0 =
        (some [("title", v.title),
               ("url", "https://www.youtube.com/watch?v=" ++ v.id),
               ("channel_title", v.channel_title)], some v.id) :=
  ⟨by decide, (c7_absent_iff_empty demoProvider ["UC1"] none 0).2 (by decide)⟩

/-- C2 counterexample: a configuration whose sender and recipient
addresses lack an `@` (a "must hold" validation assertion of
`Config.validate`) still constructs successfully and the scheduling loop
starts: `Config.validate` is never invoked on the startup path, so its
failures do not prevent startup. -/
theorem c2_counterexample :
    startsSchedulingLoop envNoAt = true ∧
    Config_init envNoAt = .ok ⟨"yt-key", ["UCaaaaaaaaaaaaaaaaaaaaaa"], "sg-key",
      "sender-without-at", "recipient-without-at", 24, "INFO",
      "logs/sermon_emailer.log"⟩ ∧
    Config.validate ⟨"yt-key", ["UCaaaaaaaaaaaaaaaaaaaaaa"], "sg-key",
      "sender-without-at", "recipient-without-at", 24, "INFO",
      "logs/sermon_emailer.log"⟩ = false ∧
    "sender-without-at".data.contains '@' = false :=
  ⟨rfl, rfl, rfl, rfl⟩

/-- C2 amended: startup fails — the scheduling loop never starts — when a
required configuration value is absent or empty; but the `Config.validate`
assertions (positive interval, `@` in addresses) are never executed at
startup, so a configuration failing only those does not prevent the loop
from starting. -/
theorem c2_required_fail (env : String → Option String) (k : String)
    (hk : k ∈ requiredKeys) (h : env k = none ∨ env k = some "") :
    startsSchedulingLoop env = false := by
  cases hc : Config_init env with
  | error e => simp [startsSchedulingLoop, hc]
  | ok c =>
    obtain ⟨v, hv⟩ := config_init_ok_required hc k hk
    obtain ⟨e, he⟩ := req_env_fail h
    rw [hv] at he
    simp at he

theorem c2_required_fail_witness :
    ("RECIPIENT_EMAIL" ∈ requiredKeys ∧ envMissingRecipient "RECIPIENT_EMAIL" = none) ∧
    startsSchedulingLoop envMissingRecipient = false :=
  ⟨⟨by decide, by decide⟩,
   c2_required_fail envMissingRecipient "RECIPIENT_EMAIL" (by decide)
     (Or.inl (by decide))⟩

/-- C10: any `YOUTUBE_CHANNEL_IDS` value that passes the required-variable
check (any non-empty string) parses to a list of at least one identifier —
the "No YouTube channel IDs provided" branch is unreachable; the
degenerate value `","` yields two empty-string identifiers, accepted with
only a format warning, never rejected. -/
theorem c10_channel_ids_accepted (env : String → Option String) (s : String)
    (henv : env "YOUTUBE_CHANNEL_IDS" = some s) (h : s ≠ "") :
    ∃ ids, _get_channel_ids env = .ok ids ∧ 1 ≤ ids.length ∧
      (s = "," → ids = ["", ""] ∧ channelIdWarning "" = true) := by
  have hne2 : ((pySplitStr ',' s).map pyStripStr) ≠ [] := by
    intro hmap
    exact pySplit_ne_nil ',' s.data (by simpa [pySplitStr] using hmap)
  have hcond : ((pySplitStr ',' s).map pyStripStr).isEmpty = false := by
    rw [List.isEmpty_eq_false]
    exact hne2
  refine ⟨(pySplitStr ',' s).map pyStripStr, ?_, ?_, ?_⟩
  · unfold _get_channel_ids
    simp only [req_env_some henv h]
    unfold _get_channel_ids_parse
    simp only [hcond, Bool.false_eq_true, if_false]
  · have := List.length_pos.mpr hne2
    omega
  · rintro rfl
    exact ⟨by decide, by decide⟩

theorem c10_channel_ids_accepted_witness :
    ((fun key => if key = "YOUTUBE_CHANNEL_IDS" then some "," else none)
        "YOUTUBE_CHANNEL_IDS" = some "," ∧ ("," : String) ≠ "") ∧
    ∃ ids, _get_channel_ids
        (fun key => if key = "YOUTUBE_CHANNEL_IDS" then some "," else none) = .ok ids ∧
      1 ≤ ids.length ∧
      (("," : String) = "," → ids = ["", ""] ∧ channelIdWarning "" = true) :=
  ⟨⟨by decide, by decide⟩,
   c10_channel_ids_accepted
     (fun key => if key = "YOUTUBE_CHANNEL_IDS" then some "," else none) ","
     (by decide) (by decide)⟩

/-- C8: a channel fetch with `max_results` = 75 against a provider whose
pages honor the requested page size (and so hold at most 50 items, the
cap the code requests) issues at least two page requests when the first
page reports a continuation token, returns at most 75 videos in total,
and stops issuing requests as soon as a page reports no next-page
token. -/
theorem c8_pagination (p : Provider) (cid pid : String) (rest : List String)
    (hres : p.channels_list cid = .ok (pid :: rest))
    (hsz : ∀ sz tok page, p.playlistItems_list pid sz tok = .ok page →
      page.items.length ≤ sz)
    (hfirst : ∃ page, p.playlistItems_list pid 50 none = .ok page ∧
      page.nextPageToken.isSome) :
    2 ≤ get_channel_videos_requests p cid 75 ∧
    (get_channel_videos p cid 75).length ≤ 75 ∧
    (∀ (fuel : Nat) (vids : List Video) (tok : Option String) (reqs : Nat)
       (page : Page), vids.length < 75 →
       p.playlistItems_list pid (min 50 (75 - vids.length)) tok = .ok page →
       page.nextPageToken = none →
       fetchLoop p pid 75 (fuel + 1) vids tok reqs =
         (some (vids ++ page.items), reqs + 1)) := by
  obtain ⟨page1, hp1, htok1⟩ := hfirst
  obtain ⟨t1, ht1⟩ := Option.isSome_iff_exists.mp htok1
  have hitems1 : page1.items.length ≤ 50 := hsz 50 none page1 hp1
  refine ⟨?_, ?_, ?_⟩
  · unfold get_channel_videos_requests
    simp only [hres]
    show 2 ≤ (fetchLoop p pid 75 (75 + 1) [] none 0).2
    rw [fetchLoop_step_cont p pid 75 75 [] none 0 page1 t1 (by simp) hp1 ht1]
    have hlen2 : (([] : List Video) ++ page1.items).length < 75 := by
      simp only [List.nil_append]
      omega
    exact fetchLoop_count_succ p pid 75 74 _ _ 1 hlen2
  · unfold get_channel_videos
    simp only [hres]
    cases h2 : (fetchLoop p pid 75 (75 + 1) [] none 0).1 with
    | none => simp
    | some vids =>
      simp only [h2]
      exact fetchLoop_length_le p pid 75 hsz _ [] none 0 vids (by simp) h2
  · intro fuel vids tok reqs page hlen hp ht
    exact fetchLoop_step_stop p pid 75 fuel vids tok reqs page hlen hp ht

theorem c8_pagination_witness :
    pagedProvider.channels_list "UCchan" = .ok ["PLpaged"] ∧
    2 ≤ get_channel_videos_requests pagedProvider "UCchan" 75 ∧
    (get_channel_videos pagedProvider "UCchan" 75).length ≤ 75 := by
  have hsz : ∀ sz tok page,
      pagedProvider.playlistItems_list "PLpaged" sz tok = .ok page →
      page.items.length ≤ sz := by
    intro sz tok page h
    cases tok <;> simp only [pagedProvider, Except.ok.injEq] at h <;>
      rw [← h] <;> simp [Nat.min_le_left]
  have h := c8_pagination pagedProvider "UCchan" "PLpaged" [] rfl hsz
    ⟨⟨List.replicate (min 50 50) ⟨"v1", "T1", "C", "p"⟩, some "page2"⟩, rfl, rfl⟩
  exact ⟨rfl, h.1, h.2.1⟩

/-- C9: every provider-level failure during a channel fetch — resolution
error, channel identifier that does not resolve (empty `items`), or a
page-request error anywhere in the pagination chain — makes
`get_channel_videos` return the empty list; the function is total over
all provider behaviours, modelling that no exception reaches the
caller. -/
theorem c9_provider_failure_empty (p : Provider) (cid : String) (mr : Nat)
    (h : (∃ e, p.channels_list cid = .error e) ∨
         p.channels_list cid = .ok [] ∨
         ∃ pid rest, p.channels_list cid = .ok (pid :: rest) ∧
           (fetchLoop p pid mr (mr + 1) [] none 0).1 = none) :
    get_channel_videos p cid mr = [] := by
  unfold get_channel_videos
  rcases h with ⟨e, he⟩ | he | ⟨pid, rest, hres, hloop⟩
  · simp only [he]
  · simp only [he]
  · simp only [hres, hloop]

theorem c9_provider_failure_empty_witness :
    (∃ e, failingProvider.channels_list "UCchan" = .error e) ∧
    get_channel_videos failingProvider "UCchan" 50 = [] :=
  ⟨⟨"quotaExceeded", rfl⟩,
   c9_provider_failure_empty failingProvider "UCchan" 50
     (Or.inl ⟨"quotaExceeded", rfl⟩)⟩

end Sermon
